import Mathlib

set_option linter.unusedVariables false

/- Verification model of the EventSource SSE client (eventsource.js of this
   repository): a shallow embedding of the incremental text/event-stream
   parser (the `res.on('data')` handler together with `parseEventStreamLine`)
   and of the connection-lifecycle state machine (`connect`,
   `onConnectionClosed`, the reconnect timer callback and `_close`).

   Buffers are byte lists (`List Nat`).  JavaScript strings that originate
   from buffer slices (field names, values, `lastEventId`, event data) are
   kept as byte lists; UTF-8 decoding is deferred, which is faithful for the
   dispatch comparisons because valid UTF-8 encoding is injective.
   Configuration strings (urls, header names) are Lean strings.
   `original` (the `origin()` helper, which delegates to the WHATWG URL
   library) is treated as an external collaborator and passed as a function
   parameter.  `undefined` array reads are modelled by a non-byte sentinel. -/

/-- UTF-8 bytes of an ASCII string: for ASCII text the code points are the
    bytes. Used to write concrete byte-list literals readably. -/
def asciiBytes (s : String) : List Nat :=
  s.data.map (fun c => c.toNat)

/-- Source line 24: `const bom = [239, 187, 191]`. -/
def bomBytes : List Nat := [239, 187, 191]

/-- Source line 25: `const colon = 58`. -/
def colonByte : Nat := 58

/-- Source line 26: `const space = 32`. -/
def spaceByte : Nat := 32

/-- Source line 27: `const lineFeed = 10`. -/
def lineFeedByte : Nat := 10

/-- Source line 28: `const carriageReturn = 13`. -/
def carriageReturnByte : Nat := 13

/-- Reading `buf[i]` on a Node Buffer: the byte, or `undefined` out of range.
    The sentinel 256 is not a byte and compares unequal to every byte
    constant, exactly as `undefined` does under `===`. -/
def byteAt (buf : List Nat) (i : Nat) : Nat :=
  buf.getD i 256

/-- Source lines 30-34, `hasBom(buf)`: `bom.every((c, i) => buf[i] === c)`.
    An out-of-range read is `undefined` and fails the comparison. -/
def hasBom (buf : List Nat) : Bool :=
  (byteAt buf 0 == 239) && (byteAt buf 1 == 187) && (byteAt buf 2 == 191)

/-- JavaScript truthiness of an optional boolean property
    (`undefined` is falsy). -/
def jsTruthy : Option Bool → Bool
  | none => false
  | some b => b

/-- Leading decimal-digit prefix value, or `none` when there is no digit:
    the digit-consuming core of JavaScript `parseInt(value, 10)`. -/
def jsParseIntDigits (s : List Nat) : Option Nat :=
  let ds := s.takeWhile (fun c => decide (48 ≤ c) && decide (c ≤ 57))
  if ds = [] then none
  else some (ds.foldl (fun a c => a * 10 + (c - 48)) 0)

/-- ASCII whitespace accepted (and skipped) by `parseInt` before the sign.
    (JavaScript additionally skips some rare non-ASCII Unicode space
    characters; SSE `retry:` values are ASCII in practice.) -/
def isAsciiWhitespace (c : Nat) : Bool :=
  c == 9 || c == 10 || c == 11 || c == 12 || c == 13 || c == 32

/-- Model of JavaScript `parseInt(value, 10)` on the value's bytes
    (source line 315): skip leading whitespace, optional sign, then a
    decimal-digit prefix; `none` models `NaN`. -/
def jsParseInt (s : List Nat) : Option Int :=
  match s.dropWhile isAsciiWhitespace with
  | 43 :: rest => (jsParseIntDigits rest).map (fun n => (n : Int))
  | 45 :: rest => (jsParseIntDigits rest).map (fun n => -(n : Int))
  | t => (jsParseIntDigits t).map (fun n => (n : Int))

/-- The W3C MessageEvent payload dispatched for a completed event
    (source lines 283-287 and 449-456): type, data, lastEventId, origin. -/
structure MessageEvent where
  type : List Nat
  data : List Nat
  lastEventId : List Nat
  origin : String
deriving Repr, DecidableEq

/-- Ready states (source lines 359-365). -/
inductive ReadyState where
  | CONNECTING
  | OPEN
  | CLOSED
deriving Repr, DecidableEq

/-- The mutable closure state of one `EventSource` instance: connection
    lifecycle variables, session-scoped parser variables
    (`discardTrailingNewline`, `data`, `eventName`, `lastEventId`,
    `reconnectInterval`), connection-scoped parser variables (`isFirst`,
    `buf`, `startingPos`, `startingFieldLength`), and the trace of
    dispatched message events.  `transportActive` models whether a request
    or its response stream is in flight (set by `connect`, cleared when the
    response is consumed or `req.abort()` is called); callbacks of a dead
    transport cannot fire. -/
structure EState where
  readyState : ReadyState
  url : String
  reconnectUrl : Option String
  initHeaders : List (String × List Nat)
  lastEventId : List Nat
  reconnectInterval : Int
  connectionInProgress : Bool
  transportActive : Bool
  discardTrailingNewline : Bool
  data : List Nat
  eventName : Option (List Nat)
  isFirst : Bool
  buf : Option (List Nat)
  startingPos : Nat
  startingFieldLength : Int
  emitted : List MessageEvent
deriving Repr, DecidableEq

/-- The `eventSourceInitDict` object: the caller-supplied init object, restricted to
    the members the modelled code reads.  `rejectUnauthorized` is the legacy
    top-level flag (source line 110), `https` the structured TLS option
    object (source lines 132-143); `none` models an absent / `undefined`
    member, and TLS option values are modelled as booleans since only
    `rejectUnauthorized` is observed. -/
structure InitDict where
  headers : List (String × List Nat)
  rejectUnauthorized : Option Bool
  https : Option (List (String × Option Bool))
deriving Repr, DecidableEq

/-- Observable side effects of a lifecycle step: emitted `open` / `error`
    events, issuing a request (`connect`), and `setTimeout` scheduling of a
    reconnect attempt with its delay. -/
inductive ESAction where
  | emitOpen
  | emitError (status : Option Nat) (message : Option String)
  | connectAttempt (headers : List (String × List Nat))
  | scheduleReconnect (delay : Int)
deriving Repr, DecidableEq

/-- External stimuli of the lifecycle state machine: an HTTP response head,
    a body chunk, stream termination (`close`/`end`), a transport error,
    the reconnect timer firing, and an explicit `close()` call. -/
inductive StepInput where
  | response (status : Nat) (message : String) (location : Option String)
  | bodyData (chunk : List Nat)
  | streamEnd
  | reqError (message : String)
  | timerFired
  | close
deriving Repr, DecidableEq

/-- Source line 282, the expression `eventName || 'message'`: both `undefined` (after a
    blank line) and the empty string (initial value, or an empty `event:`
    value) are falsy. -/
def jsEventType : Option (List Nat) → List Nat
  | none => asciiBytes "message"
  | some l => if l = [] then asciiBytes "message" else l

/-- Model of `buf.slice(start, start + len).toString()`, kept as bytes. -/
def sliceBytes (buf : List Nat) (start len : Nat) : List Nat :=
  (buf.drop start).take len

/-- The field-dispatch tail of `parseEventStreamLine`
    (source lines 308-319): `data` appends value plus a newline, `event`
    overwrites the pending event name, `id` overwrites `lastEventId`
    (even with an empty value), `retry` updates the reconnect interval when
    `parseInt` succeeds; any other field is ignored. -/
def processField (field value : List Nat) (s : EState) : EState :=
  if field = asciiBytes "data" then
    { s with data := s.data ++ value ++ [lineFeedByte] }
  else if field = asciiBytes "event" then
    { s with eventName := some value }
  else if field = asciiBytes "id" then
    { s with lastEventId := value }
  else if field = asciiBytes "retry" then
    match jsParseInt value with
    | some n => { s with reconnectInterval := n }
    | none => s
  else s

/-- Model of `parseEventStreamLine(buf, pos, fieldLength, lineLength)`
    (source lines 279-321).  A zero-length line flushes pending data as a
    MessageEvent (when non-empty) and always resets the pending event name
    to `undefined`.  Otherwise the line is dispatched only under
    `fieldLength > 0`; the `noValue` branch for colon-less lines
    (`fieldLength < 0`) is kept verbatim although that guard makes it
    unreachable.  `data.slice(0, -1)` drops the single trailing newline. -/
def parseEventStreamLine (original : String → String) (buf : List Nat)
    (pos : Nat) (fieldLength : Int) (lineLength : Nat) (s : EState) : EState :=
  if lineLength = 0 then
    let s1 :=
      if s.data ≠ [] then
        { s with
          emitted := s.emitted ++
            [{ type := jsEventType s.eventName
               data := s.data.dropLast
               lastEventId := s.lastEventId
               origin := original s.url }]
          data := [] }
      else s
    { s1 with eventName := none }
  else if 0 < fieldLength then
    let noValue := decide (fieldLength < 0)
    let field := sliceBytes buf pos (if noValue then lineLength else fieldLength.toNat)
    let step :=
      if noValue then lineLength
      else if byteAt buf (pos + fieldLength.toNat + 1) ≠ spaceByte then fieldLength.toNat + 1
      else fieldLength.toNat + 2
    let vpos := pos + step
    let value := sliceBytes buf vpos (lineLength - step)
    processField field value s
  else s

/-- The inner `for` loop of the data handler (source lines 219-231): scan
    from index `startingPos` (not from `pos`!), recording the first colon
    while `fieldLength < 0` and stopping at the first byte that makes
    `lineLength = i - pos` non-negative; a carriage return additionally
    sets `discardTrailingNewline`.  Because the scan restarts at
    `startingPos` (reset to 0 after every completed line) while `pos` has
    advanced, bytes before `pos` are re-examined: terminators there yield a
    negative `lineLength` (so the loop continues) but a re-scanned carriage
    return still sets `discardTrailingNewline`.  `i` increases by one per
    iteration and is bounded by `buf.length`, so the loop is written with an
    explicit iteration budget (`fuel`); callers pass `buf.length + 1`,
    which always suffices. -/
def scanLoop (buf : List Nat) (pos : Nat) :
    Nat → Nat → Int → Int → Bool → Int × Int × Bool
  | 0, _, fieldLength, lineLength, discard => (fieldLength, lineLength, discard)
  | fuel + 1, i, fieldLength, lineLength, discard =>
    if lineLength < 0 ∧ i < buf.length then
      let c := byteAt buf i
      if c = colonByte then
        (if fieldLength < 0 then
          scanLoop buf pos fuel (i + 1) ((i : Int) - (pos : Int)) lineLength discard
        else
          scanLoop buf pos fuel (i + 1) fieldLength lineLength discard)
      else if c = carriageReturnByte then
        scanLoop buf pos fuel (i + 1) fieldLength ((i : Int) - (pos : Int)) true
      else if c = lineFeedByte then
        scanLoop buf pos fuel (i + 1) fieldLength ((i : Int) - (pos : Int)) discard
      else
        scanLoop buf pos fuel (i + 1) fieldLength lineLength discard
    else
      (fieldLength, lineLength, discard)

/-- The outer `while (pos < length)` loop of the data handler
    (source lines 207-245), with enough fuel to run to completion
    (`pos` strictly increases each iteration, so `buf.length + 1`
    iterations always suffice).  Top of the loop: a pending
    `discardTrailingNewline` consumes one line feed at `pos`; then the
    scan runs; a negative `lineLength` stores the carry-over markers and
    breaks, otherwise the markers are reset, the line is parsed and `pos`
    advances past the terminator. -/
def dataLoop (original : String → String) (buf : List Nat) :
    Nat → Nat → EState → Nat × EState
  | 0, pos, s => (pos, s)
  | fuel + 1, pos, s =>
    if pos < buf.length then
      let pos1 :=
        if s.discardTrailingNewline && (byteAt buf pos == lineFeedByte) then pos + 1 else pos
      let s1 := { s with discardTrailingNewline := false }
      let r := scanLoop buf pos1 (buf.length + 1) s1.startingPos s1.startingFieldLength (-1) false
      let fieldLength := r.1
      let lineLength := r.2.1
      let discard := r.2.2
      if lineLength < 0 then
        (pos1, { s1 with
          discardTrailingNewline := discard
          startingPos := buf.length - pos1
          startingFieldLength := fieldLength })
      else
        let s2 := parseEventStreamLine original buf pos1 fieldLength lineLength.toNat
          { s1 with
            discardTrailingNewline := discard
            startingPos := 0
            startingFieldLength := -1 }
        dataLoop original buf fuel (pos1 + lineLength.toNat + 1) s2
    else (pos, s)

/-- The `res.on('data')` handler (source lines 197-252): concatenate the
    carry-over buffer with the chunk, strip a byte-order mark only when
    this is the very first chunk and the three BOM bytes are already
    present, run the line loop, then retain any unconsumed suffix. -/
def feedChunk (original : String → String) (s : EState) (chunk : List Nat) : EState :=
  let buf0 :=
    match s.buf with
    | some b => b ++ chunk
    | none => chunk
  let buf1 := if s.isFirst && hasBom buf0 then buf0.drop bomBytes.length else buf0
  let s1 := { s with isFirst := false, buf := some buf1 }
  let r := dataLoop original buf1 (buf1.length + 1) 0 s1
  let pos := r.1
  let s2 := r.2
  if pos = buf1.length then { s2 with buf := none }
  else if 0 < pos then { s2 with buf := some (buf1.drop pos) }
  else s2

/-- Feed a byte stream as a sequence of transport chunks. -/
def feedAll (original : String → String) (s : EState) (chunks : List (List Nat)) : EState :=
  chunks.foldl (feedChunk original) s

/-- JavaScript object property assignment `obj[k] = v` on an association
    list with unique keys: replace the existing entry in place, or append. -/
def setAssoc {β : Type} : List (String × β) → String → β → List (String × β)
  | [], k, v => [(k, v)]
  | p :: rest, k, v =>
    if p.1 = k then (k, v) :: rest else p :: setAssoc rest k v

/-- Source line 85, `delete headers['Last-Event-ID']`, on an association
    list with unique keys. -/
def eraseHeader (l : List (String × List Nat)) (k : String) : List (String × List Nat) :=
  l.filter (fun p => decide (p.1 ≠ k))

/-- One step of the caller-header merge loop (source lines 100-105):
    a falsy (empty) header value is skipped, a truthy one is assigned. -/
def mergeHeader (acc : List (String × List Nat)) (p : String × List Nat) :
    List (String × List Nat) :=
  if p.2 ≠ [] then setAssoc acc p.1 p.2 else acc

/-- Request-header construction in `connect` (source lines 97-106):
    the two fixed headers, then `Last-Event-ID` only when `lastEventId`
    is truthy (non-empty), then the caller-supplied headers merged on top
    (truthy values only). -/
def buildHeaders (lastEventId : List Nat) (callerHeaders : List (String × List Nat)) :
    List (String × List Nat) :=
  let base : List (String × List Nat) :=
    [("Cache-Control", asciiBytes "no-cache"), ("Accept", asciiBytes "text/event-stream")]
  let base1 := if lastEventId ≠ [] then setAssoc base "Last-Event-ID" lastEventId else base
  callerHeaders.foldl mergeHeader base1

/-- Model of `connect()` (source lines 94-262) as a state-machine operation: build
    the request headers from the current session state and issue the
    request.  (Transport-option resolution is modelled separately by
    `resolveTransportOptions`; proxy handling and `createConnection` are
    passthrough configuration not observed by any modelled behaviour.) -/
def connect (s : EState) : EState × List ESAction :=
  ({ s with transportActive := true },
   [ESAction.connectAttempt (buildHeaders s.lastEventId s.initHeaders)])

/-- Model of `onConnectionClosed(message)` (source lines 61-79): a no-op once
    CLOSED; otherwise flip to CONNECTING, emit `error`, restore the url
    from a truthy `reconnectUrl`, and schedule a reconnect attempt after
    `reconnectInterval` milliseconds. -/
def onConnectionClosed (msg : Option String) (s : EState) : EState × List ESAction :=
  if s.readyState = ReadyState.CLOSED then (s, [])
  else
    let s1 := { s with readyState := ReadyState.CONNECTING }
    let s2 :=
      match s1.reconnectUrl with
      | some u => if u ≠ "" then { s1 with url := u, reconnectUrl := none } else s1
      | none => s1
    (s2, [ESAction.emitError none msg, ESAction.scheduleReconnect s2.reconnectInterval])

/-- The reconnect `setTimeout` callback (source lines 72-78): fire a new
    attempt only if the state is still CONNECTING and no attempt is in
    progress. -/
def timerFired (s : EState) : EState × List ESAction :=
  if s.readyState ≠ ReadyState.CONNECTING || s.connectionInProgress then (s, [])
  else connect { s with connectionInProgress := true }

/-- Model of `_close` (source lines 272-277): idempotent; flips to CLOSED and
    aborts the in-flight transport. -/
def doClose (s : EState) : EState × List ESAction :=
  if s.readyState = ReadyState.CLOSED then (s, [])
  else ({ s with readyState := ReadyState.CLOSED, transportActive := false }, [])

/-- The response callback of the request (source lines 150-189):
    5xx retryable statuses emit `error` and run the close/reconnect path;
    redirect statuses without a `Location` header emit `error` and stop;
    with one, a 307 records the pre-redirect url in `reconnectUrl`, the
    url is rewritten and `connect` re-runs immediately
    (`process.nextTick`); any other non-200 status emits `error` and
    closes; a 200 opens the stream. -/
def handleResponse (status : Nat) (message : String) (location : Option String)
    (s : EState) : EState × List ESAction :=
  let s0 := { s with connectionInProgress := false }
  if status = 500 ∨ status = 502 ∨ status = 503 ∨ status = 504 then
    let r := onConnectionClosed none { s0 with transportActive := false }
    (r.1, ESAction.emitError (some status) (some message) :: r.2)
  else if status = 301 ∨ status = 302 ∨ status = 307 then
    match location with
    | none => ({ s0 with transportActive := false }, [ESAction.emitError (some status) (some message)])
    | some loc =>
      let s1 := if status = 307 then { s0 with reconnectUrl := some s0.url } else s0
      connect { s1 with url := loc, transportActive := false }
  else if status ≠ 200 then
    ((doClose { s0 with transportActive := false }).1,
     [ESAction.emitError (some status) (some message)])
  else
    ({ s0 with readyState := ReadyState.OPEN, transportActive := true }, [ESAction.emitOpen])

/-- The lifecycle step function.  Response, body and termination callbacks
    can only be delivered while their transport is alive
    (`transportActive`); an aborted or consumed transport delivers
    nothing, which models `req.abort()` and the listener removal in the
    source.  Body chunks arrive only on an open streaming response. -/
def esStep (original : String → String) (s : EState) : StepInput → EState × List ESAction
  | StepInput.response status message location =>
    if s.transportActive then handleResponse status message location s else (s, [])
  | StepInput.bodyData chunk =>
    if s.transportActive ∧ s.readyState = ReadyState.OPEN then (feedChunk original s chunk, [])
    else (s, [])
  | StepInput.streamEnd =>
    if s.transportActive then onConnectionClosed none { s with transportActive := false }
    else (s, [])
  | StepInput.reqError m =>
    if s.transportActive then
      onConnectionClosed (some m) { s with connectionInProgress := false, transportActive := false }
    else (s, [])
  | StepInput.timerFired => timerFired s
  | StepInput.close => doClose s

/-- The `EventSource` constructor (source lines 43-92 with the initial
    `connect()` call at line 264): initial session state, extraction of a
    truthy caller-supplied `Last-Event-ID` header into `lastEventId`
    (deleting it from the header map), then the first connection attempt. -/
def newEventSource (original : String → String) (url : String) (dict : Option InitDict) :
    EState × List ESAction :=
  let dictHeaders :=
    match dict with
    | some d => d.headers
    | none => []
  let lid :=
    match List.lookup "Last-Event-ID" dictHeaders with
    | some v => if v ≠ [] then v else []
    | none => []
  let hdrs :=
    match List.lookup "Last-Event-ID" dictHeaders with
    | some v => if v ≠ [] then eraseHeader dictHeaders "Last-Event-ID" else dictHeaders
    | none => dictHeaders
  connect
    { readyState := ReadyState.CONNECTING
      url := url
      reconnectUrl := none
      initHeaders := hdrs
      lastEventId := lid
      reconnectInterval := 1000
      connectionInProgress := false
      transportActive := false
      discardTrailingNewline := false
      data := []
      eventName := some []
      isFirst := true
      buf := none
      startingPos := 0
      startingFieldLength := -1
      emitted := [] }

/-- The `httpsOptions` allow-list (source lines 7-10). -/
def httpsOptions : List String :=
  ["pfx", "key", "passphrase", "cert", "ca", "ciphers",
   "rejectUnauthorized", "secureProtocol", "servername", "checkServerIdentity"]

/-- The structured-TLS merge loop (source lines 131-143): copy each
    option whose name is allow-listed and whose value is defined onto the
    request options. -/
def mergeHttpsOptions (opts : List (String × Bool)) (h : List (String × Option Bool)) :
    List (String × Bool) :=
  h.foldl
    (fun acc p =>
      if httpsOptions.contains p.1 then
        match p.2 with
        | some v => setAssoc acc p.1 v
        | none => acc
      else acc)
    opts

/-- Transport options after the legacy assignment
    `options.rejectUnauthorized = !(eventSourceInitDict && !eventSourceInitDict.rejectUnauthorized)`
    (source line 110) followed by the structured-TLS merge
    (source lines 131-143). -/
def resolveTransportOptions (dict : Option InitDict) : List (String × Bool) :=
  let base : List (String × Bool) :=
    [("rejectUnauthorized",
      match dict with
      | none => true
      | some d => jsTruthy d.rejectUnauthorized)]
  match dict with
  | none => base
  | some d =>
    match d.https with
    | none => base
    | some h => mergeHttpsOptions base h

/-- The effective `rejectUnauthorized` transport option. -/
def effectiveRejectUnauthorized (dict : Option InitDict) : Bool :=
  (List.lookup "rejectUnauthorized" (resolveTransportOptions dict)).getD false

/- Association-list lemmas for the header and option maps. -/

/-- Updating key `k` makes `k` look up the new value. -/
theorem lookup_setAssoc_self {β : Type} (l : List (String × β)) (k : String) (v : β) :
    List.lookup k (setAssoc l k v) = some v := by
  induction l with
  | nil => simp [setAssoc, List.lookup]
  | cons p rest ih =>
    by_cases h : p.1 = k
    · simp [setAssoc, h, List.lookup]
    · obtain ⟨pk, pv⟩ := p
      simp only at h
      simp [setAssoc, h, List.lookup, beq_false_of_ne (Ne.symm h), ih]

/-- Updating key `k'` does not change what another key looks up. -/
theorem lookup_setAssoc_ne {β : Type} (l : List (String × β)) (k k' : String) (v : β)
    (h : k ≠ k') : List.lookup k (setAssoc l k' v) = List.lookup k l := by
  induction l with
  | nil => simp [setAssoc, List.lookup, beq_false_of_ne h]
  | cons p rest ih =>
    obtain ⟨pk, pv⟩ := p
    by_cases hp : pk = k'
    · subst hp
      simp [setAssoc, List.lookup, beq_false_of_ne h]
    · simp only [setAssoc, hp, if_false]
      by_cases hk : k = pk
      · subst hk
        simp [List.lookup]
      · simp [List.lookup, beq_false_of_ne hk, ih]

/-- Updating key `k'` does not change the sub-list of entries of another key. -/
theorem filter_setAssoc_ne {β : Type} (l : List (String × β)) (k k' : String) (v : β)
    (h : k' ≠ k) :
    (setAssoc l k' v).filter (fun p => decide (p.1 = k)) =
      l.filter (fun p => decide (p.1 = k)) := by
  induction l with
  | nil => simp [setAssoc, h]
  | cons p rest ih =>
    obtain ⟨pk, pv⟩ := p
    by_cases hp : pk = k'
    · subst hp
      simp [setAssoc, List.filter, h, ih]
    · simp [setAssoc, hp, List.filter, ih]

/-- Merging caller headers whose entries for key `K` are all falsy (empty)
    leaves the lookup of `K` unchanged. -/
theorem lookup_foldl_mergeHeader (K : String) (ch : List (String × List Nat)) :
    ∀ acc : List (String × List Nat), (∀ p ∈ ch, p.1 = K → p.2 = []) →
      List.lookup K (ch.foldl mergeHeader acc) = List.lookup K acc := by
  induction ch with
  | nil => intro acc _; rfl
  | cons q t ih =>
    intro acc h
    rw [List.foldl_cons, ih _ fun p hp => h p (List.mem_cons_of_mem _ hp)]
    unfold mergeHeader
    by_cases hq : q.2 = []
    · simp [hq]
    · have hkey : K ≠ q.1 := fun he => hq (h q (List.mem_cons_self _ _) he.symm)
      simp [hq, lookup_setAssoc_ne _ _ _ _ hkey]

/-- Merging caller headers that never use key `K` leaves the sub-list of
    `K`-entries unchanged. -/
theorem filter_foldl_mergeHeader (K : String) (ch : List (String × List Nat)) :
    ∀ acc : List (String × List Nat), (∀ p ∈ ch, p.1 ≠ K) →
      (ch.foldl mergeHeader acc).filter (fun p => decide (p.1 = K)) =
        acc.filter (fun p => decide (p.1 = K)) := by
  induction ch with
  | nil => intro acc _; rfl
  | cons q t ih =>
    intro acc h
    rw [List.foldl_cons, ih _ fun p hp => h p (List.mem_cons_of_mem _ hp)]
    unfold mergeHeader
    by_cases hq : q.2 = []
    · simp [hq]
    · simp [hq, filter_setAssoc_ne _ _ _ _ (h q (List.mem_cons_self _ _))]

/-- An entry surviving `eraseHeader l K` does not have key `K`. -/
theorem mem_eraseHeader_ne (l : List (String × List Nat)) (K : String)
    (p : String × List Nat) (h : p ∈ eraseHeader l K) : p.1 ≠ K := by
  have := List.of_mem_filter h
  simpa using this

/-- After deleting key `K`, looking it up yields nothing. -/
theorem lookup_eraseHeader (l : List (String × List Nat)) (K : String) :
    List.lookup K (eraseHeader l K) = none := by
  induction l with
  | nil => rfl
  | cons p rest ih =>
    obtain ⟨pk, pv⟩ := p
    by_cases hp : pk = K
    · simpa [eraseHeader, hp] using ih
    · simpa [eraseHeader, hp, List.lookup, beq_false_of_ne (Ne.symm hp)] using ih

/- Projection lemmas for the field dispatch. -/

/-- The field dispatch changes `lastEventId` exactly on `id` fields. -/
theorem processField_lastEventId (f v : List Nat) (s : EState) :
    (processField f v s).lastEventId =
      if f = asciiBytes "id" then v else s.lastEventId := by
  by_cases h : f = asciiBytes "id"
  · subst h
    rw [if_pos rfl]
    unfold processField
    rw [if_neg (by decide), if_neg (by decide), if_pos rfl]
  · rw [if_neg h]
    unfold processField
    split_ifs <;> first
      | rfl
      | (cases jsParseInt v <;> rfl)

/-- The field dispatch never touches the lifecycle fields. -/
theorem processField_lifecycle (f v : List Nat) (s : EState) :
    (processField f v s).readyState = s.readyState ∧
    (processField f v s).transportActive = s.transportActive := by
  unfold processField
  split_ifs <;> first
    | exact ⟨rfl, rfl⟩
    | (cases jsParseInt v <;> exact ⟨rfl, rfl⟩)

/-- A parsed line never touches the lifecycle fields. -/
theorem parseEventStreamLine_lifecycle (original : String → String) (buf : List Nat)
    (pos : Nat) (fieldLength : Int) (lineLength : Nat) (s : EState) :
    (parseEventStreamLine original buf pos fieldLength lineLength s).readyState = s.readyState ∧
    (parseEventStreamLine original buf pos fieldLength lineLength s).transportActive =
      s.transportActive := by
  unfold parseEventStreamLine
  split_ifs <;> first
    | exact ⟨rfl, rfl⟩
    | exact processField_lifecycle _ _ _

/-- The data-handler loop never touches the lifecycle fields. -/
theorem dataLoop_lifecycle (original : String → String) (buf : List Nat) :
    ∀ (fuel pos : Nat) (s : EState),
      (dataLoop original buf fuel pos s).2.readyState = s.readyState ∧
      (dataLoop original buf fuel pos s).2.transportActive = s.transportActive := by
  intro fuel
  induction fuel with
  | zero => intro pos s; exact ⟨rfl, rfl⟩
  | succ fuel ih =>
    intro pos s
    show (dataLoop original buf (fuel + 1) pos s).2.readyState = s.readyState ∧ _
    simp only [dataLoop]
    split_ifs <;>
      first
        | exact ⟨rfl, rfl⟩
        | exact ⟨by rw [(ih _ _).1, (parseEventStreamLine_lifecycle _ _ _ _ _ _).1],
                 by rw [(ih _ _).2, (parseEventStreamLine_lifecycle _ _ _ _ _ _).2]⟩

/-- Feeding a body chunk never touches the lifecycle fields. -/
theorem feedChunk_lifecycle (original : String → String) (s : EState) (chunk : List Nat) :
    (feedChunk original s chunk).readyState = s.readyState ∧
    (feedChunk original s chunk).transportActive = s.transportActive := by
  cases hb : s.buf <;> simp only [feedChunk, hb] <;> split_ifs <;>
    exact ⟨by rw [(dataLoop_lifecycle _ _ _ _ _).1],
           by rw [(dataLoop_lifecycle _ _ _ _ _).2]⟩

/-- The last `id:` value of a field sequence, or the default when none
    occurs: the reference for `lastEventId` persistence. -/
def lastIdOf (fields : List (List Nat × List Nat)) (dflt : List Nat) : List Nat :=
  fields.foldl (fun acc p => if p.1 = asciiBytes "id" then p.2 else acc) dflt

/-- Folding the field dispatch over a field sequence leaves `lastEventId`
    equal to the last `id:` value seen (the session's prior value when
    none occurs). -/
theorem foldl_processField_lastEventId (fields : List (List Nat × List Nat)) :
    ∀ s : EState,
      (fields.foldl (fun t p => processField p.1 p.2 t) s).lastEventId =
        lastIdOf fields s.lastEventId := by
  induction fields with
  | nil => intro s; rfl
  | cons p t ih =>
    intro s
    rw [List.foldl_cons, ih]
    simp only [lastIdOf, List.foldl_cons, processField_lastEventId]

/-- The structured TLS `rejectUnauthorized` accumulation of the merge loop,
    started from an arbitrary accumulator: each allow-listed defined
    occurrence overwrites it. -/
def structuredRULast (a : Option Bool) (h : List (String × Option Bool)) : Option Bool :=
  h.foldl
    (fun acc p =>
      if p.1 = "rejectUnauthorized" then
        match p.2 with
        | some v => some v
        | none => acc
      else acc)
    a

/-- The structured TLS `rejectUnauthorized` value supplied by the caller,
    if any: the last defined occurrence in the `https` option object. -/
def structuredRU (d : InitDict) : Option Bool :=
  match d.https with
  | none => none
  | some h => structuredRULast none h

/-- The accumulated structured value either comes from the list (whatever
    the start was) or is the start itself. -/
theorem structuredRULast_shift (h : List (String × Option Bool)) :
    ∀ a : Option Bool, structuredRULast a h = (structuredRULast none h).elim a some := by
  induction h with
  | nil => intro a; rfl
  | cons p t ih =>
    intro a
    rw [show structuredRULast a (p :: t) =
          structuredRULast
            (if p.1 = "rejectUnauthorized" then
               match p.2 with
               | some v => some v
               | none => a
             else a) t from rfl]
    rw [show structuredRULast none (p :: t) =
          structuredRULast
            (if p.1 = "rejectUnauthorized" then
               match p.2 with
               | some v => some v
               | none => none
             else none) t from rfl]
    rw [ih (if p.1 = "rejectUnauthorized" then
              match p.2 with
              | some v => some v
              | none => a
            else a),
        ih (if p.1 = "rejectUnauthorized" then
              match p.2 with
              | some v => some v
              | none => none
            else none)]
    cases hg : structuredRULast none t with
    | some w => simp
    | none =>
      by_cases hp : p.1 = "rejectUnauthorized"
      · cases hv : p.2 <;> simp [hp, hv]
      · simp [hp]

/-- The merge loop's effect on the `rejectUnauthorized` request option:
    the last defined structured occurrence wins, otherwise the option map
    is untouched. -/
theorem lookup_mergeHttpsOptions (h : List (String × Option Bool)) :
    ∀ opts : List (String × Bool),
      List.lookup "rejectUnauthorized" (mergeHttpsOptions opts h) =
        (structuredRULast none h).elim (List.lookup "rejectUnauthorized" opts) some := by
  induction h with
  | nil => intro opts; rfl
  | cons p t ih =>
    obtain ⟨pk, pv⟩ := p
    intro opts
    rw [show mergeHttpsOptions opts ((pk, pv) :: t) =
          mergeHttpsOptions
            (if httpsOptions.contains pk then
               match pv with
               | some v => setAssoc opts pk v
               | none => opts
             else opts) t from rfl]
    rw [ih]
    rw [show structuredRULast none ((pk, pv) :: t) =
          structuredRULast
            (if pk = "rejectUnauthorized" then
               match pv with
               | some v => some v
               | none => none
             else none) t from rfl]
    rw [structuredRULast_shift t
          (if pk = "rejectUnauthorized" then
             match pv with
             | some v => some v
             | none => none
           else none)]
    cases hg : structuredRULast none t with
    | some w => simp
    | none =>
      by_cases hp : pk = "rejectUnauthorized"
      · subst hp
        cases hv : pv with
        | some v =>
          simp [hv, lookup_setAssoc_self,
            show ("rejectUnauthorized" : String) ∈ httpsOptions from by decide]
        | none =>
          simp [hv, show ("rejectUnauthorized" : String) ∈ httpsOptions from by decide]
      · have hne : "rejectUnauthorized" ≠ pk := fun he => hp he.symm
        cases hv : pv with
        | some v =>
          by_cases hmem : pk ∈ httpsOptions
          · simp [hv, hp, hmem, lookup_setAssoc_ne _ _ _ _ hne]
          · simp [hv, hp, hmem]
        | none =>
          by_cases hmem : pk ∈ httpsOptions
          · simp [hv, hp, hmem]
          · simp [hv, hp, hmem]

/- Concrete session fixtures used by the closed evaluation theorems. -/

/-- A concrete origin function (the parser claims do not constrain the
    URL-origin computation, which is library code). -/
def idOrigin : String → String := fun u => u

/-- A session whose first connection attempt received a 200 response:
    ready state OPEN, stream being fed to the parser. -/
def openedState : EState :=
  (esStep idOrigin (newEventSource idOrigin "http://x/" none).1
    (StepInput.response 200 "OK" none)).1

/-- C1: the claim says every well-formed blank-line-terminated event is
    emitted with its `data:` values joined by a newline.  The code violates
    this on streams with mixed CR-LF / LF line endings: in
    `data: a\r\ndata: b\n\n` (a single chunk), re-scanning the carriage
    return at index 7 while scanning the second line spuriously sets
    `discardTrailingNewline`, which then consumes the final blank line's
    line feed, so no event at all is emitted and the data stays pending;
    the same stream with LF-only endings yields the expected single event
    with data `a\nb`. -/
theorem crlf_mixed_stream_drops_event :
    (feedChunk idOrigin openedState (asciiBytes "data: a\r\ndata: b\n\n")).emitted = []
  ∧ (feedChunk idOrigin openedState (asciiBytes "data: a\r\ndata: b\n\n")).data =
      asciiBytes "a\nb\n"
  ∧ (feedChunk idOrigin openedState (asciiBytes "data: a\ndata: b\n\n")).emitted =
      [{ type := asciiBytes "message", data := asciiBytes "a\nb",
         lastEventId := [], origin := "http://x/" }] := by
  decide

/-- C2: the claim says the emitted event sequence is invariant under
    re-chunking of the byte stream.  Two refutations by evaluation:
    (1) `data: a\r\ndata: b\n\n` emits nothing as a single chunk but one
    event when split after the CR-LF (the spurious `discardTrailingNewline`
    of the re-scan is consumed harmlessly at the chunk boundary);
    (2) a byte-order mark is stripped only when the whole mark is inside
    the first chunk, so splitting inside the BOM turns `data` into an
    unrecognized field name and suppresses the event. -/
theorem chunk_boundary_variance :
    (feedAll idOrigin openedState [asciiBytes "data: a\r\ndata: b\n\n"]).emitted = []
  ∧ (feedAll idOrigin openedState
      [asciiBytes "data: a\r\n", asciiBytes "data: b\n\n"]).emitted =
      [{ type := asciiBytes "message", data := asciiBytes "a\nb",
         lastEventId := [], origin := "http://x/" }]
  ∧ (feedAll idOrigin openedState [bomBytes ++ asciiBytes "data: x\n\n"]).emitted =
      [{ type := asciiBytes "message", data := asciiBytes "x",
         lastEventId := [], origin := "http://x/" }]
  ∧ (feedAll idOrigin openedState [[239], [187, 191] ++ asciiBytes "data: x\n\n"]).emitted =
      [] := by
  decide

/-- C3: the claim says a complete non-blank line without a colon is
    dispatched as a field name with an empty value (so a lone `data` line
    would append a newline to the pending data).  In the code such a line
    reaches `parseEventStreamLine` with `fieldLength = -1`, fails the
    `fieldLength > 0` guard (the `noValue` branch behind that guard is
    unreachable), and is ignored: after `data\n\n` the pending data is
    still empty and no event is emitted. -/
theorem colonless_line_not_dispatched :
    (feedChunk idOrigin openedState (asciiBytes "data\n\n")).emitted = []
  ∧ (feedChunk idOrigin openedState (asciiBytes "data\n\n")).data = [] := by
  decide

/-- C4 (amended): the stored last-event id after a sequence of parsed
    fields equals the last `id:` value seen (an empty `id:` value resets
    it; the session's prior value persists when no `id:` occurs), and the
    `Last-Event-ID` request header is present exactly when the stored id is
    non-empty, in which case it carries that stored value (caller headers
    whose `Last-Event-ID` entries are falsy cannot interfere). -/
theorem id_field_persistence
    (s : EState) (fields : List (List Nat × List Nat)) (ch : List (String × List Nat))
    (hch : ∀ p ∈ ch, p.1 = "Last-Event-ID" → p.2 = []) :
    (fields.foldl (fun t p => processField p.1 p.2 t) s).lastEventId =
      lastIdOf fields s.lastEventId
  ∧ (∀ lid : List Nat,
      List.lookup "Last-Event-ID" (buildHeaders lid ch) =
        if lid = [] then none else some lid) := by
  constructor
  · exact foldl_processField_lastEventId fields s
  · intro lid
    unfold buildHeaders
    rw [lookup_foldl_mergeHeader _ _ _ hch]
    by_cases h : lid = []
    · rw [if_neg (not_not_intro h), if_pos h]
      rfl
    · rw [if_pos h, if_neg h]
      exact lookup_setAssoc_self _ _ _

/-- C4 counterexample: parse `id: a` and then an empty `id:`; the next
    request's headers contain no `Last-Event-ID` at all, although the last
    non-empty `id:` value seen was `a` — the empty `id:` value reset the
    stored id. -/
theorem id_last_nonempty_counterexample :
    (feedChunk idOrigin openedState (asciiBytes "id: a\nid:\n")).lastEventId = []
  ∧ List.lookup "Last-Event-ID"
      (buildHeaders
        (feedChunk idOrigin openedState (asciiBytes "id: a\nid:\n")).lastEventId []) = none
  ∧ List.lookup "Last-Event-ID"
      (buildHeaders
        (feedChunk idOrigin openedState (asciiBytes "id: a\nid:\n")).lastEventId []) ≠
      some (asciiBytes "a") := by
  decide

/-- C4 witness: two `id:` fields (`a`, then empty) leave the stored id at
    the last value, and a non-empty stored id `a` is sent as the header. -/
theorem id_field_persistence_witness :
    ([(asciiBytes "id", asciiBytes "a"), (asciiBytes "id", [])].foldl
        (fun t p => processField p.1 p.2 t) openedState).lastEventId =
      lastIdOf [(asciiBytes "id", asciiBytes "a"), (asciiBytes "id", [])]
        openedState.lastEventId
  ∧ List.lookup "Last-Event-ID"
      (buildHeaders (asciiBytes "a") [("X-Api-Key", asciiBytes "k")]) =
      (if asciiBytes "a" = ([] : List Nat) then none else some (asciiBytes "a")) := by
  have h := id_field_persistence openedState
    [(asciiBytes "id", asciiBytes "a"), (asciiBytes "id", [])]
    [("X-Api-Key", asciiBytes "k")] (by decide)
  exact ⟨h.1, h.2 (asciiBytes "a")⟩

/-- C5: on a 307 response with a `Location` header the manager records the
    current url as the pending redirect url, rewrites the url to the
    target, and reconnects in the same tick with no scheduled delay (the
    only action is the new request); on the following disconnect the url
    reverts to the recorded pre-redirect target and the pending redirect
    url is cleared. -/
theorem redirect307_single_use
    (original : String → String) (s : EState) (msg : String) (loc : String)
    (hact : s.transportActive = true) :
    esStep original s (StepInput.response 307 msg (some loc)) =
      ({ s with connectionInProgress := false, reconnectUrl := some s.url,
                url := loc, transportActive := true },
       [ESAction.connectAttempt (buildHeaders s.lastEventId s.initHeaders)])
  ∧ (∀ t : EState, t.transportActive = true → t.readyState ≠ ReadyState.CLOSED →
      t.reconnectUrl = some s.url → s.url ≠ "" →
        (esStep original t StepInput.streamEnd).1.url = s.url ∧
        (esStep original t StepInput.streamEnd).1.reconnectUrl = none) := by
  constructor
  · simp [esStep, hact, handleResponse, connect]
  · intro t h1 h2 h3 h4
    simp [esStep, h1, onConnectionClosed, h2, h3, h4]

/-- A pre-redirect session fixture with a non-empty last event id. -/
def redirectState : EState :=
  { (newEventSource idOrigin "http://a/" none).1 with lastEventId := asciiBytes "7" }

/-- The session right after the 307 redirect to `http://b/` was followed. -/
def redirectedState : EState :=
  (esStep idOrigin redirectState (StepInput.response 307 "t" (some "http://b/"))).1

/-- C5 witness: concrete 307 redirect from `http://a/` to `http://b/` and
    the revert on the following disconnect. -/
theorem redirect307_single_use_witness :
    (esStep idOrigin redirectState (StepInput.response 307 "t" (some "http://b/"))).1.url =
      "http://b/"
  ∧ (esStep idOrigin redirectedState StepInput.streamEnd).1.url = "http://a/"
  ∧ (esStep idOrigin redirectedState StepInput.streamEnd).1.reconnectUrl = none := by
  have h := redirect307_single_use idOrigin redirectState "t" "http://b/" (by decide)
  have h2 := h.2 redirectedState (by decide) (by decide) (by decide) (by decide)
  exact ⟨by rw [h.1], h2.1, h2.2⟩

/-- Statuses handled by the retryable-error path (source line 153). -/
def isRetryableStatus (st : Nat) : Bool :=
  st == 500 || st == 502 || st == 503 || st == 504

/-- Statuses handled by the redirect path (source line 160). -/
def isRedirectStatus (st : Nat) : Bool :=
  st == 301 || st == 302 || st == 307

/-- Lemma: `onConnectionClosed` keeps a CLOSED state and otherwise moves to
    CONNECTING. -/
theorem onConnectionClosed_readyState (msg : Option String) (s : EState) :
    (onConnectionClosed msg s).1.readyState =
      (if s.readyState = ReadyState.CLOSED then s.readyState else ReadyState.CONNECTING) := by
  unfold onConnectionClosed
  split
  · simp_all
  · dsimp only
    split <;> first | rfl | (split <;> rfl)

/-- Lemma: `onConnectionClosed` never touches the transport flag. -/
theorem onConnectionClosed_transportActive (msg : Option String) (s : EState) :
    (onConnectionClosed msg s).1.transportActive = s.transportActive := by
  unfold onConnectionClosed
  split
  · rfl
  · dsimp only
    split <;> first | rfl | (split <;> rfl)

/-- If `onConnectionClosed` ends CLOSED it must have started CLOSED
    (it never closes a session itself). -/
theorem onConnectionClosed_closed_of (msg : Option String) (s : EState)
    (h : (onConnectionClosed msg s).1.readyState = ReadyState.CLOSED) :
    s.readyState = ReadyState.CLOSED := by
  rw [onConnectionClosed_readyState] at h
  by_cases hc : s.readyState = ReadyState.CLOSED
  · exact hc
  · rw [if_neg hc] at h
    cases h

/-- C6 (amended): CLOSED is terminal, but it is entered not only by an
    explicit `close()`: a response with a non-retryable, non-redirect,
    non-200 status also closes the session (`return self.close()`).
    Precisely: (1) any step that ends CLOSED either started CLOSED, was a
    `close()`, or was such a response; (2) the invariant "CLOSED implies
    the transport has been aborted" is preserved by every step; (3) from a
    CLOSED state with the transport aborted, every input — another
    `close()` (idempotent), a previously scheduled reconnect timer firing,
    or any transport callback — is a complete no-op: the state is
    unchanged and no action (in particular no connection attempt and no
    reconnect scheduling) is performed. -/
theorem closed_is_terminal (original : String → String) (s : EState) :
    (∀ i : StepInput, (esStep original s i).1.readyState = ReadyState.CLOSED →
        s.readyState = ReadyState.CLOSED ∨ i = StepInput.close ∨
        (∃ st m l, i = StepInput.response st m l ∧ st ≠ 200 ∧
          isRedirectStatus st = false ∧ isRetryableStatus st = false))
  ∧ ((s.readyState = ReadyState.CLOSED → s.transportActive = false) →
      ∀ i : StepInput, (esStep original s i).1.readyState = ReadyState.CLOSED →
        (esStep original s i).1.transportActive = false)
  ∧ (s.readyState = ReadyState.CLOSED → s.transportActive = false →
      ∀ i : StepInput, esStep original s i = (s, [])) := by
  refine ⟨?_, ?_, ?_⟩
  · intro i hi
    cases i with
    | response st m l =>
      by_cases ht : s.transportActive = true
      · by_cases h5 : st = 500 ∨ st = 502 ∨ st = 503 ∨ st = 504
        · left
          simp only [esStep, ht, if_true, handleResponse, h5] at hi
          have hk := onConnectionClosed_closed_of _ _ hi
          exact hk
        · by_cases hr : st = 301 ∨ st = 302 ∨ st = 307
          · left
            simp only [esStep, ht, if_true, handleResponse, h5, hr, if_true, if_false] at hi
            cases l with
            | none => simpa using hi
            | some loc =>
              by_cases h307 : st = 307 <;> simpa [connect, h307] using hi
          · by_cases h200 : st = 200
            · exfalso
              simp [esStep, ht, handleResponse, h5, hr, h200] at hi
            · right; right
              refine ⟨st, m, l, rfl, h200, ?_, ?_⟩
              · simp only [isRedirectStatus, Bool.or_eq_false_iff, beq_eq_false_iff_ne]
                push_neg at hr
                tauto
              · simp only [isRetryableStatus, Bool.or_eq_false_iff, beq_eq_false_iff_ne]
                push_neg at h5
                tauto
      · left
        simp only [Bool.not_eq_true] at ht
        simpa [esStep, ht] using hi
    | bodyData c =>
      left
      by_cases hg : s.transportActive = true ∧ s.readyState = ReadyState.OPEN
      · rw [show esStep original s (StepInput.bodyData c) = (feedChunk original s c, [])
              from by simp [esStep, hg]] at hi
        simp only at hi
        rw [(feedChunk_lifecycle original s c).1] at hi
        exact hi
      · simpa [esStep, hg] using hi
    | streamEnd =>
      left
      by_cases ht : s.transportActive = true
      · simp only [esStep, ht, if_true] at hi
        have hk := onConnectionClosed_closed_of _ _ hi
        exact hk
      · simp only [Bool.not_eq_true] at ht
        simpa [esStep, ht] using hi
    | reqError m =>
      left
      by_cases ht : s.transportActive = true
      · simp only [esStep, ht, if_true] at hi
        have hk := onConnectionClosed_closed_of _ _ hi
        exact hk
      · simp only [Bool.not_eq_true] at ht
        simpa [esStep, ht] using hi
    | timerFired =>
      left
      simp only [esStep] at hi
      unfold timerFired at hi
      split at hi
      · exact hi
      · simpa [connect] using hi
    | close =>
      right; left; rfl
  · intro hinv i hi
    cases i with
    | response st m l =>
      by_cases ht : s.transportActive = true
      · by_cases h5 : st = 500 ∨ st = 502 ∨ st = 503 ∨ st = 504
        · simp only [esStep, ht, if_true, handleResponse, h5, if_true] at hi ⊢
          rw [onConnectionClosed_transportActive]
        · by_cases hr : st = 301 ∨ st = 302 ∨ st = 307
          · simp only [esStep, ht, if_true, handleResponse, h5, hr, if_true, if_false] at hi ⊢
            cases l with
            | none => rfl
            | some loc =>
              exfalso
              have hrs : s.readyState = ReadyState.CLOSED := by
                by_cases h307 : st = 307 <;> simpa [connect, h307] using hi
              exact absurd (hinv hrs) (by simp [ht])
          · by_cases h200 : st = 200
            · exfalso
              simp [esStep, ht, handleResponse, h5, hr, h200] at hi
            · by_cases hc : s.readyState = ReadyState.CLOSED
              · simp [esStep, ht, handleResponse, h5, hr, h200, doClose, hc]
              · simp [esStep, ht, handleResponse, h5, hr, h200, doClose, hc]
      · simp only [Bool.not_eq_true] at ht
        rw [show esStep original s (StepInput.response st m l) = (s, [])
              from by simp [esStep, ht]] at hi ⊢
        exact ht
    | bodyData c =>
      by_cases hg : s.transportActive = true ∧ s.readyState = ReadyState.OPEN
      · exfalso
        rw [show esStep original s (StepInput.bodyData c) = (feedChunk original s c, [])
              from by simp [esStep, hg]] at hi
        simp only at hi
        rw [(feedChunk_lifecycle original s c).1] at hi
        rw [hi] at hg
        simp at hg
      · rw [show esStep original s (StepInput.bodyData c) = (s, [])
              from by simp [esStep, hg]] at hi ⊢
        exact hinv hi
    | streamEnd =>
      by_cases ht : s.transportActive = true
      · simp only [esStep, ht, if_true] at hi ⊢
        rw [onConnectionClosed_transportActive]
      · simp only [Bool.not_eq_true] at ht
        rw [show esStep original s StepInput.streamEnd = (s, [])
              from by simp [esStep, ht]] at hi ⊢
        exact ht
    | reqError m =>
      by_cases ht : s.transportActive = true
      · simp only [esStep, ht, if_true] at hi ⊢
        rw [onConnectionClosed_transportActive]
      · simp only [Bool.not_eq_true] at ht
        rw [show esStep original s (StepInput.reqError m) = (s, [])
              from by simp [esStep, ht]] at hi ⊢
        exact ht
    | timerFired =>
      simp only [esStep] at hi ⊢
      unfold timerFired at hi ⊢
      split at hi <;> rename_i hguard
      · rw [show (if (decide ¬s.readyState = ReadyState.CONNECTING || s.connectionInProgress) = true
                  then (s, [])
                  else connect { s with connectionInProgress := true }) = ((s, []) : EState × List ESAction)
              from by rw [if_pos hguard]]
        exact hinv hi
      · exfalso
        have hrs : s.readyState = ReadyState.CONNECTING := by
          by_contra hne
          exact hguard (by simp [hne])
        have : s.readyState = ReadyState.CLOSED := by simpa [connect] using hi
        rw [hrs] at this
        cases this
    | close =>
      by_cases hc : s.readyState = ReadyState.CLOSED
      · rw [show esStep original s StepInput.close = (s, [])
              from by simp [esStep, doClose, hc]] at hi ⊢
        exact hinv hc
      · rw [show esStep original s StepInput.close =
              ({ s with readyState := ReadyState.CLOSED, transportActive := false }, [])
              from by simp [esStep, doClose, hc]]
  · intro hrs hta i
    cases i with
    | response st m l => simp [esStep, hta]
    | bodyData c => simp [esStep, hta]
    | streamEnd => simp [esStep, hta]
    | reqError m => simp [esStep, hta]
    | timerFired => simp [esStep, timerFired, hrs]
    | close => simp [esStep, doClose, hrs]

/-- C6 counterexample: a 404 response (no `close()` call) moves a freshly
    connecting session to CLOSED — CLOSED is not reached only via explicit
    `close()`. -/
theorem closed_not_only_via_close_counterexample :
    (esStep idOrigin (newEventSource idOrigin "http://a/" none).1
        (StepInput.response 404 "Not Found" none)).1.readyState = ReadyState.CLOSED
  ∧ (newEventSource idOrigin "http://a/" none).1.readyState ≠ ReadyState.CLOSED
  ∧ StepInput.response 404 "Not Found" none ≠ StepInput.close := by
  decide

/-- The session after a 404 closed it: readyState CLOSED, transport
    aborted. -/
def closedState : EState :=
  (esStep idOrigin (newEventSource idOrigin "http://a/" none).1
    (StepInput.response 404 "Not Found" none)).1

/-- C6 witness: in the concrete closed session, a firing reconnect timer
    and a second `close()` are both exact no-ops. -/
theorem closed_is_terminal_witness :
    esStep idOrigin closedState StepInput.timerFired = (closedState, [])
  ∧ esStep idOrigin closedState StepInput.close = (closedState, [])
  ∧ esStep idOrigin closedState StepInput.streamEnd = (closedState, []) := by
  have h := (closed_is_terminal idOrigin closedState).2.2 (by decide) (by decide)
  exact ⟨h StepInput.timerFired, h StepInput.close, h StepInput.streamEnd⟩

/-- C7 (amended): the effective `rejectUnauthorized` transport option is
    the structured TLS value when one was supplied (the legacy flag is
    consulted only when no structured value exists); with no init dict at
    all the option is enabled (true); but when an init dict is supplied
    with neither option, it resolves to the falsy reading of the absent
    legacy flag, i.e. to false, not true. -/
theorem rejectUnauthorized_resolution :
    (∀ d : InitDict,
      effectiveRejectUnauthorized (some d) =
        (structuredRU d).getD (jsTruthy d.rejectUnauthorized))
  ∧ effectiveRejectUnauthorized none = true
  ∧ (∀ d : InitDict, structuredRU d = none → d.rejectUnauthorized = none →
      effectiveRejectUnauthorized (some d) = false) := by
  have hmain : ∀ d : InitDict,
      effectiveRejectUnauthorized (some d) =
        (structuredRU d).getD (jsTruthy d.rejectUnauthorized) := by
    intro d
    unfold effectiveRejectUnauthorized resolveTransportOptions structuredRU
    dsimp only
    cases hh : d.https with
    | none => rfl
    | some h =>
      dsimp only
      rw [lookup_mergeHttpsOptions]
      cases structuredRULast none h <;> rfl
  refine ⟨hmain, rfl, ?_⟩
  intro d hstruct hleg
  rw [hmain d, hstruct, hleg]
  rfl

/-- C7 counterexample: an init dict that sets neither the legacy flag nor
    a structured TLS value resolves `rejectUnauthorized` to false — the
    option does not default to enabled once any init dict is supplied. -/
theorem rejectUnauthorized_default_counterexample :
    effectiveRejectUnauthorized
      (some { headers := [], rejectUnauthorized := none, https := none }) ≠ true := by
  decide

/-- C7 witness: a structured `rejectUnauthorized := true` wins over a
    legacy `false`, and a dict with neither resolves to false. -/
theorem rejectUnauthorized_resolution_witness :
    effectiveRejectUnauthorized
      (some { headers := [], rejectUnauthorized := some false,
              https := some [("rejectUnauthorized", some true)] }) =
      (structuredRU { headers := [], rejectUnauthorized := some false,
                      https := some [("rejectUnauthorized", some true)] }).getD
        (jsTruthy (some false))
  ∧ effectiveRejectUnauthorized
      (some { headers := [], rejectUnauthorized := none, https := some [] }) = false := by
  refine ⟨rejectUnauthorized_resolution.1 _, ?_⟩
  exact rejectUnauthorized_resolution.2.2 _ (by decide) (by decide)

/-- C8: a 301/302/307 response without a `Location` header emits exactly
    one error event carrying the status and message; no reconnect is
    scheduled, no connection is attempted, and every session field —
    in particular `readyState` and `url` — is left as it was, except that
    the finished transport is no longer active and the in-progress flag is
    cleared: the session stalls. -/
theorem redirect_missing_location_stalls
    (original : String → String) (s : EState) (st : Nat) (m : String)
    (hact : s.transportActive = true) (hst : st = 301 ∨ st = 302 ∨ st = 307) :
    esStep original s (StepInput.response st m none) =
      ({ s with connectionInProgress := false, transportActive := false },
       [ESAction.emitError (some st) (some m)]) := by
  rcases hst with h | h | h <;> subst h <;> simp [esStep, hact, handleResponse]

/-- C8 witness: a fresh session receiving a 301 without `Location`. -/
theorem redirect_missing_location_stalls_witness :
    esStep idOrigin (newEventSource idOrigin "http://a/" none).1
        (StepInput.response 301 "Moved Permanently" none) =
      ({ (newEventSource idOrigin "http://a/" none).1 with
          connectionInProgress := false, transportActive := false },
       [ESAction.emitError (some 301) (some "Moved Permanently")]) :=
  redirect_missing_location_stalls idOrigin (newEventSource idOrigin "http://a/" none).1
    301 "Moved Permanently" (by decide) (Or.inl rfl)

/-- C9: a complete `retry: ` line whose value bytes `parseInt` to `n` sets
    the session reconnect interval to `n` and changes nothing else, while a
    value that does not parse leaves the state untouched; a subsequent
    disconnect schedules the reconnect after exactly the session interval
    (the interval a fresh session starts with is 1000 ms). -/
theorem retry_overrides_reconnect_interval (original : String → String) :
    (∀ (s : EState) (v : List Nat),
      (∀ n : Int, jsParseInt v = some n →
        parseEventStreamLine original (asciiBytes "retry: " ++ v) 0 5 (7 + v.length) s =
          { s with reconnectInterval := n })
      ∧ (jsParseInt v = none →
        parseEventStreamLine original (asciiBytes "retry: " ++ v) 0 5 (7 + v.length) s = s))
  ∧ (∀ t : EState, t.transportActive = true → t.readyState ≠ ReadyState.CLOSED →
      (esStep original t StepInput.streamEnd).2 =
        [ESAction.emitError none none, ESAction.scheduleReconnect t.reconnectInterval])
  ∧ (newEventSource original "http://a/" none).1.reconnectInterval = 1000
  ∧ (feedChunk idOrigin openedState (asciiBytes "retry: 5000\n")).reconnectInterval = 5000 := by
  refine ⟨?_, ?_, rfl, by decide⟩
  · intro s v
    have hb : asciiBytes "retry: " = 114 :: 101 :: 116 :: 114 :: 121 :: 58 :: 32 :: [] := rfl
    have key : parseEventStreamLine original (asciiBytes "retry: " ++ v) 0 5 (7 + v.length) s =
        processField (asciiBytes "retry") v s := by
      rw [hb]
      unfold parseEventStreamLine
      rw [if_neg (by omega), if_pos (by norm_num)]
      show processField
          (sliceBytes (114 :: 101 :: 116 :: 114 :: 121 :: 58 :: 32 :: v) 0 5)
          (sliceBytes (114 :: 101 :: 116 :: 114 :: 121 :: 58 :: 32 :: v) 7 (7 + v.length - 7))
          s =
        processField (asciiBytes "retry") v s
      rw [show sliceBytes (114 :: 101 :: 116 :: 114 :: 121 :: 58 :: 32 :: v) 0 5 =
            asciiBytes "retry" from rfl]
      rw [show sliceBytes (114 :: 101 :: 116 :: 114 :: 121 :: 58 :: 32 :: v) 7
            (7 + v.length - 7) = List.take (7 + v.length - 7) v from rfl]
      rw [show 7 + v.length - 7 = v.length from by omega]
      rw [List.take_length]
    constructor
    · intro n hn
      rw [key]
      unfold processField
      rw [if_neg (by decide), if_neg (by decide), if_neg (by decide), if_pos rfl, hn]
    · intro hn
      rw [key]
      unfold processField
      rw [if_neg (by decide), if_neg (by decide), if_neg (by decide), if_pos rfl, hn]
  · intro t h1 h2
    simp [esStep, h1, onConnectionClosed, h2]
    cases t.reconnectUrl with
    | none => rfl
    | some u =>
      dsimp only
      split <;> rfl

/-- C9 witness: `retry: 5000` parses to 5000 and sets the interval; a
    disconnect of the updated session schedules a 5000 ms reconnect. -/
theorem retry_overrides_reconnect_interval_witness :
    parseEventStreamLine idOrigin (asciiBytes "retry: " ++ asciiBytes "5000") 0 5
        (7 + (asciiBytes "5000").length) openedState =
      { openedState with reconnectInterval := 5000 }
  ∧ (esStep idOrigin { openedState with reconnectInterval := 5000 } StepInput.streamEnd).2 =
      [ESAction.emitError none none, ESAction.scheduleReconnect 5000] := by
  have h := retry_overrides_reconnect_interval idOrigin
  refine ⟨(h.1 openedState (asciiBytes "5000")).1 5000 (by decide), ?_⟩
  exact h.2.1 { openedState with reconnectInterval := 5000 } (by decide) (by decide)

/-- C10: a construction whose caller headers contain a truthy
    `Last-Event-ID` entry adopts that value as the initial session id and
    deletes the entry from the header map, so the constructor's immediate
    first request carries exactly one `Last-Event-ID` header with that
    value (the caller map, now lacking the entry, cannot contribute a
    second one). -/
theorem constructor_adopts_last_event_id
    (original : String → String) (url : String) (d : InitDict) (v : List Nat)
    (hv : List.lookup "Last-Event-ID" d.headers = some v) (hne : v ≠ []) :
    (newEventSource original url (some d)).1.lastEventId = v
  ∧ List.lookup "Last-Event-ID" (newEventSource original url (some d)).1.initHeaders = none
  ∧ (newEventSource original url (some d)).2 =
      [ESAction.connectAttempt (buildHeaders v (eraseHeader d.headers "Last-Event-ID"))]
  ∧ List.lookup "Last-Event-ID"
      (buildHeaders v (eraseHeader d.headers "Last-Event-ID")) = some v
  ∧ (buildHeaders v (eraseHeader d.headers "Last-Event-ID")).filter
      (fun p => decide (p.1 = "Last-Event-ID")) = [("Last-Event-ID", v)] := by
  have herase : ∀ p ∈ eraseHeader d.headers "Last-Event-ID", p.1 ≠ "Last-Event-ID" :=
    fun p hp => mem_eraseHeader_ne _ _ p hp
  have hlook : List.lookup "Last-Event-ID"
      (buildHeaders v (eraseHeader d.headers "Last-Event-ID")) = some v := by
    unfold buildHeaders
    rw [lookup_foldl_mergeHeader _ _ _ (fun p hp hk => absurd hk (herase p hp))]
    rw [if_pos hne]
    exact lookup_setAssoc_self _ _ _
  have hfilter : (buildHeaders v (eraseHeader d.headers "Last-Event-ID")).filter
      (fun p => decide (p.1 = "Last-Event-ID")) = [("Last-Event-ID", v)] := by
    unfold buildHeaders
    rw [filter_foldl_mergeHeader _ _ _ herase]
    rw [if_pos hne]
    rfl
  have hstate : (newEventSource original url (some d)).1.lastEventId = v
      ∧ (newEventSource original url (some d)).1.initHeaders =
          eraseHeader d.headers "Last-Event-ID"
      ∧ (newEventSource original url (some d)).2 =
          [ESAction.connectAttempt (buildHeaders v (eraseHeader d.headers "Last-Event-ID"))] := by
    unfold newEventSource connect
    dsimp only
    rw [hv]
    dsimp only
    rw [if_pos hne, if_pos hne]
    exact ⟨rfl, rfl, rfl⟩
  refine ⟨hstate.1, ?_, hstate.2.2, hlook, hfilter⟩
  rw [hstate.2.1]
  exact lookup_eraseHeader _ _

/-- C10 witness: constructing with a caller `Last-Event-ID: 42` header. -/
theorem constructor_adopts_last_event_id_witness :
    (newEventSource idOrigin "http://a/"
        (some { headers := [("Last-Event-ID", asciiBytes "42")],
                rejectUnauthorized := none, https := none })).1.lastEventId =
      asciiBytes "42"
  ∧ List.lookup "Last-Event-ID"
      (buildHeaders (asciiBytes "42")
        (eraseHeader [("Last-Event-ID", asciiBytes "42")] "Last-Event-ID")) =
      some (asciiBytes "42") := by
  have h := constructor_adopts_last_event_id idOrigin "http://a/"
    { headers := [("Last-Event-ID", asciiBytes "42")],
      rejectUnauthorized := none, https := none }
    (asciiBytes "42") (by decide) (by decide)
  exact ⟨h.1, h.2.2.2.1⟩
